import Mathlib

/-!
Verification of the Droply file/folder API handlers.

Shallow embedding of the three route handlers of this repository:

* `src/app/api/files/route.ts`          — `GET`  : directory listing
* `src/app/api/folders/create/route.ts` — `POST` : folder creation
* `src/app/api/upload/route.ts`         — `POST` : upload-completion recording

The database table `files` (`src/lib/db/schema.ts`) is modelled as a
`List Node`; the Drizzle queries become list filters/finds.  The database
generated values (`uuid defaultRandom` primary key, `defaultNow`
timestamps) and the handler-side `uuidv4()` calls are passed in as
explicit generator parameters.  JavaScript truthiness (`!x`, `x || d`,
`if (x)`) is modelled explicitly: `undefined`/`null` → absent `Option`,
and the empty string / zero are falsy.
-/

namespace Droply

/-- A JSON value as it can appear in a parsed request body field.
`Option JVal` with `none` stands for an absent field (`undefined`). -/
inductive JVal where
  | jnull
  | jbool (b : Bool)
  | jnum (n : Int)
  | jstr (s : String)
deriving DecidableEq, Repr

/-- JavaScript truthiness of a JSON value: `null`, `false`, `0` and the
empty string are falsy. -/
def JVal.truthy : JVal → Bool
  | .jnull => false
  | .jbool b => b
  | .jnum n => n != 0
  | .jstr s => s != ""

/-- Truthiness of a possibly-absent value: `undefined` is falsy. -/
def optTruthy : Option JVal → Bool
  | none => false
  | some v => v.truthy

/-- A row of the `files` table (`src/lib/db/schema.ts`): one Node that is
either a file or a folder.  `parentId = none` models SQL NULL (root
level); `createdAt`/`updatedAt` are the `defaultNow` timestamps. -/
structure Node where
  id : String
  name : String
  path : String
  size : Int
  type : String
  fileUrl : String
  thumbnailUrl : Option String
  userId : String
  parentId : Option String
  isFolder : Bool
  isStarred : Bool
  isTrash : Bool
  createdAt : Nat
  updatedAt : Nat
deriving DecidableEq, Repr

/-- The values a handler passes to `db.insert(files).values(...)`.
`id = none` means the column default (`uuid().defaultRandom()`) fills it. -/
structure NewFile where
  id : Option String
  name : String
  path : String
  size : Int
  type : String
  fileUrl : String
  thumbnailUrl : Option String
  userId : String
  parentId : Option String
  isFolder : Bool
  isStarred : Bool
  isTrash : Bool
deriving DecidableEq, Repr

/-- Database-generated values for one insert: the random uuid used when
the insert supplies no id, and the `defaultNow` timestamp. -/
structure DbGen where
  genId : String
  now : Nat
deriving DecidableEq, Repr

/-- `db.insert(files).values(d).returning()`: appends one row built from
`d`, with the column defaults filled from `g`, and returns that row. -/
def insertReturning (db : List Node) (d : NewFile) (g : DbGen) : Node × List Node :=
  let node : Node :=
    { id := d.id.getD g.genId
      name := d.name
      path := d.path
      size := d.size
      type := d.type
      fileUrl := d.fileUrl
      thumbnailUrl := d.thumbnailUrl
      userId := d.userId
      parentId := d.parentId
      isFolder := d.isFolder
      isStarred := d.isStarred
      isTrash := d.isTrash
      createdAt := g.now
      updatedAt := g.now }
  (node, db ++ [node])

/-! ### Directory listing — `GET /api/files` -/

/-- Outcome of the listing handler. -/
inductive ListResult where
  | unauthorized
  | ok (nodes : List Node)
deriving DecidableEq, Repr

/-- HTTP status of a listing outcome. -/
def ListResult.status : ListResult → Nat
  | .unauthorized => 401
  | .ok _ => 200

/-- `GET` of `src/app/api/files/route.ts`.
`session` is Clerk's `auth()` user id; `queryUserId` and `parentId` are
the query parameters (`searchParams.get` yields `null` for absent, here
`none`).  `if (!userId)`, `if (!queryUserId || queryUserId !== userId)`
and `if (parentId)` follow JS truthiness, so the empty string behaves
like absence. -/
def filesGET (session : Option String) (queryUserId : Option String)
    (parentId : Option String) (db : List Node) : ListResult :=
  match session with
  | none => .unauthorized
  | some userId =>
    if userId = "" then .unauthorized
    else
      match queryUserId with
      | none => .unauthorized
      | some q =>
        if q = "" then .unauthorized
        else if q ≠ userId then .unauthorized
        else
          match parentId with
          | some p =>
            if p ≠ "" then
              .ok (db.filter (fun n => n.userId == userId && n.parentId == some p))
            else
              .ok (db.filter (fun n => n.userId == userId && n.parentId == none))
          | none =>
            .ok (db.filter (fun n => n.userId == userId && n.parentId == none))

/-! ### Folder creation — `POST /api/folders/create` -/

/-- Parsed body of a folder-creation request:
`const { name, userId: bodyUserId, parentId = null } = body`.
`name` is any JSON value or absent; `parentId` is `none` for
absent/`null` (both yield SQL NULL) or `some s` for a string. -/
structure CreateFolderBody where
  name : Option JVal
  userId : Option String
  parentId : Option String
deriving DecidableEq, Repr

/-- The two `uuidv4()` calls of the folder handler (row id and path
suffix) plus the database timestamp. -/
structure FolderGen where
  idUuid : String
  pathUuid : String
  now : Nat
deriving DecidableEq, Repr

/-- Outcome of the folder-creation handler. -/
inductive CreateFolderResult where
  | unauthorized
  | validationError
  | parentNotFound
  | success (folder : Node)
deriving DecidableEq, Repr

/-- HTTP status of a folder-creation outcome. -/
def CreateFolderResult.status : CreateFolderResult → Nat
  | .unauthorized => 401
  | .validationError => 400
  | .parentNotFound => 404
  | .success _ => 200

/-- JavaScript `String.prototype.trim`: strips whitespace from both
ends.  (Defined by structural recursion on the character list so that
concrete instances evaluate.) -/
def jsTrim (s : String) : String :=
  ⟨((s.data.dropWhile Char.isWhitespace).reverse.dropWhile Char.isWhitespace).reverse⟩

/-- `!name || typeof name !== "string" || name.trim() === ""`:
absent and every non-string value are invalid (a falsy non-string fails
`!name`, a truthy non-string fails the `typeof` test); a string is
invalid exactly when it trims to empty (the falsy `""` also trims to
empty). -/
def folderNameInvalid : Option JVal → Bool
  | some (.jstr s) => jsTrim s == ""
  | _ => true

/-- The `folderData` literal of `src/app/api/folders/create/route.ts`:
id from `uuidv4()`, trimmed name, `/folders/userId/uuidv4()` path,
`size 0`, type `"folder"`, empty `fileUrl`, and the request's raw
`parentId`. -/
def mkFolderData (userId : String) (trimmedName : String)
    (parentId : Option String) (g : FolderGen) : NewFile :=
  { id := some g.idUuid
    name := trimmedName
    path := "/folders/" ++ userId ++ "/" ++ g.pathUuid
    size := 0
    type := "folder"
    fileUrl := ""
    thumbnailUrl := none
    userId := userId
    parentId := parentId
    isFolder := true
    isStarred := false
    isTrash := false }

/-- `POST` of `src/app/api/folders/create/route.ts`.  Returns the
response together with the database after the request. -/
def foldersCreatePOST (session : Option String) (body : CreateFolderBody)
    (g : FolderGen) (db : List Node) : CreateFolderResult × List Node :=
  match session with
  | none => (.unauthorized, db)
  | some userId =>
    if userId = "" then (.unauthorized, db)
    else if body.userId ≠ some userId then (.unauthorized, db)
    else
      match body.name with
      | some (.jstr s) =>
        if jsTrim s = "" then (.validationError, db)
        else
          let doInsert : CreateFolderResult × List Node :=
            let d := mkFolderData userId (jsTrim s) body.parentId g
            let r := insertReturning db d ⟨g.idUuid, g.now⟩
            (.success r.1, r.2)
          match body.parentId with
          | some p =>
            if p ≠ "" then
              match db.find? (fun n => n.id == p && n.userId == userId && n.isFolder) with
              | none => (.parentNotFound, db)
              | some _ => doInsert
            else doInsert
          | none => doInsert
      | _ => (.validationError, db)

/-! ### Upload recording — `POST /api/upload` -/

/-- The `imagekit` object of an upload-recording request body; every
field may be absent. -/
structure ImagekitObj where
  url : Option String
  name : Option String
  filePath : Option String
  size : Option Int
  fileType : Option String
  thumbnailUrl : Option String
deriving DecidableEq, Repr

/-- Parsed body of an upload-recording request.  The handler
destructures only `imagekit` and `userId`; `parentId` can be present in
the JSON but is never read. -/
structure UploadBody where
  userId : Option String
  imagekit : Option ImagekitObj
  parentId : Option String
deriving DecidableEq, Repr

/-- Outcome of the upload-recording handler. -/
inductive UploadResult where
  | unauthorized
  | invalidData
  | success (file : Node)
deriving DecidableEq, Repr

/-- HTTP status of an upload-recording outcome. -/
def UploadResult.status : UploadResult → Nat
  | .unauthorized => 401
  | .invalidData => 400
  | .success _ => 200

/-- JavaScript `o || d` on a string-or-absent value: the empty string is
falsy, so it falls through to the default. -/
def jsOr (o : Option String) (d : String) : String :=
  match o with
  | none => d
  | some s => if s = "" then d else s

/-- A template-literal interpolation of a possibly-absent string:
an `undefined` value prints as the text `undefined`. -/
def jsInterp (o : Option String) : String :=
  match o with
  | none => "undefined"
  | some s => s

/-- The `fileData` literal of `src/app/api/upload/route.ts` (with `u`
the already-checked `imagekit.url`): defaults via `||`, `parentId: null`
unconditionally, `isFolder: false`. -/
def mkFileData (userId : String) (ik : ImagekitObj) (u : String) : NewFile :=
  { id := none
    name := jsOr ik.name "Untitled"
    path := jsOr ik.filePath ("/droply/" ++ userId ++ "/" ++ jsInterp ik.name)
    size := ik.size.getD 0
    type := jsOr ik.fileType "image"
    fileUrl := u
    thumbnailUrl := match ik.thumbnailUrl with
      | none => none
      | some s => if s = "" then none else some s
    userId := userId
    parentId := none
    isFolder := false
    isStarred := false
    isTrash := false }

/-- `POST` of `src/app/api/upload/route.ts`.  Returns the response
together with the database after the request.  `!imagekit ||
!imagekit.url` rejects an absent object, an absent url, and the falsy
empty-string url. -/
def uploadPOST (session : Option String) (body : UploadBody)
    (g : DbGen) (db : List Node) : UploadResult × List Node :=
  match session with
  | none => (.unauthorized, db)
  | some userId =>
    if userId = "" then (.unauthorized, db)
    else if body.userId ≠ some userId then (.unauthorized, db)
    else
      match body.imagekit with
      | none => (.invalidData, db)
      | some ik =>
        match ik.url with
        | none => (.invalidData, db)
        | some u =>
          if u = "" then (.invalidData, db)
          else
            let r := insertReturning db (mkFileData userId ik u) g
            (.success r.1, r.2)

/-! ### Demo database used by the witnesses -/

/-- A root folder of user `u1`. -/
def nodeRootFolder : Node :=
  ⟨"p1", "Vacation", "/folders/u1/x", 0, "folder", "", none, "u1", none,
    true, false, false, 1, 1⟩

/-- A file of `u1` inside folder `p1`, both starred and trashed. -/
def nodeChildFile : Node :=
  ⟨"c1", "x.jpg", "/droply/u1/x.jpg", 1024, "image", "https://cdn/x.jpg",
    none, "u1", some "p1", false, true, true, 2, 2⟩

/-- A root file of `u1`. -/
def nodeRootFile : Node :=
  ⟨"c2", "y.jpg", "/droply/u1/y.jpg", 7, "image", "https://cdn/y.jpg",
    none, "u1", none, false, false, false, 3, 3⟩

/-- A node of a different owner `u2` under an equally-named parent id. -/
def nodeOtherOwner : Node :=
  ⟨"c3", "z.jpg", "/droply/u2/z.jpg", 9, "image", "https://cdn/z.jpg",
    none, "u2", some "p1", false, false, false, 4, 4⟩

/-- A folder of `u2` whose id `q1` is not a folder id of `u1`. -/
def nodeOtherFolder : Node :=
  ⟨"q1", "Private", "/folders/u2/y", 0, "folder", "", none, "u2", none,
    true, false, false, 5, 5⟩

/-- The demo table. -/
def demoDb : List Node :=
  [nodeRootFolder, nodeChildFile, nodeRootFile, nodeOtherOwner, nodeOtherFolder]

/-! ### Claims about the directory-listing handler -/

/-- Claim C1: for every authenticated caller and every (non-empty)
parent id, the listing handler returns exactly the nodes whose `userId`
is the caller's and whose `parentId` is the given parent, and never a
node of a different owner, whatever other owners store under the same
parent id. -/
theorem filesGET_exact_owner_parent (db : List Node) (uid p : String)
    (huid : uid ≠ "") (hp : p ≠ "") :
    ∃ l, filesGET (some uid) (some uid) (some p) db = .ok l ∧
      (∀ n, n ∈ l ↔ n ∈ db ∧ n.userId = uid ∧ n.parentId = some p) ∧
      (∀ n, n ∈ l → n.userId = uid) := by
  refine ⟨db.filter (fun n => n.userId == uid && n.parentId == some p), ?_, ?_, ?_⟩
  · simp [filesGET, huid, hp]
  · intro n
    simp [List.mem_filter, and_assoc]
  · intro n hn
    rw [List.mem_filter] at hn
    have h2 := hn.2
    simp at h2
    exact h2.1

/-- Witness for C1 on the demo table: `u2`'s node under the same parent
id `p1` is excluded. -/
theorem filesGET_exact_owner_parent_witness :
    ∃ l, filesGET (some "u1") (some "u1") (some "p1") demoDb = .ok l ∧
      (∀ n, n ∈ l ↔ n ∈ demoDb ∧ n.userId = "u1" ∧ n.parentId = some "p1") ∧
      (∀ n, n ∈ l → n.userId = "u1") :=
  filesGET_exact_owner_parent demoDb "u1" "p1" (by decide) (by decide)

/-- Claim C2: with no `parentId` query parameter the listing handler
returns exactly the caller's root nodes (`parentId` null), and never a
node with a non-null `parentId`. -/
theorem filesGET_root_listing (db : List Node) (uid : String) (huid : uid ≠ "") :
    ∃ l, filesGET (some uid) (some uid) none db = .ok l ∧
      (∀ n, n ∈ l ↔ n ∈ db ∧ n.userId = uid ∧ n.parentId = none) ∧
      (∀ n, n ∈ l → n.parentId ≠ some "") := by
  refine ⟨db.filter (fun n => n.userId == uid && n.parentId == none), ?_, ?_, ?_⟩
  · simp [filesGET, huid]
  · intro n
    simp [List.mem_filter, and_assoc]
  · intro n hn
    rw [List.mem_filter] at hn
    have h2 := hn.2
    simp at h2
    simp [h2.2]

/-- Witness for C2 on the demo table. -/
theorem filesGET_root_listing_witness :
    ∃ l, filesGET (some "u1") (some "u1") none demoDb = .ok l ∧
      (∀ n, n ∈ l ↔ n ∈ demoDb ∧ n.userId = "u1" ∧ n.parentId = none) ∧
      (∀ n, n ∈ l → n.parentId ≠ some "") :=
  filesGET_root_listing demoDb "u1" (by decide)

/-- Claim C9: the listing handler applies no trash or star filtering:
a node with `isTrash` or `isStarred` set that matches the owner and the
parent is included, at root as well as under a named parent. -/
theorem filesGET_no_trash_star_filter (db : List Node) (uid : String) (n : Node)
    (huid : uid ≠ "") (hmem : n ∈ db) (hown : n.userId = uid)
    (hflag : n.isTrash = true ∨ n.isStarred = true) :
    (n.parentId = none →
      ∃ l, filesGET (some uid) (some uid) none db = .ok l ∧ n ∈ l) ∧
    (∀ p, p ≠ "" → n.parentId = some p →
      ∃ l, filesGET (some uid) (some uid) (some p) db = .ok l ∧ n ∈ l) := by
  constructor
  · intro hroot
    refine ⟨db.filter (fun m => m.userId == uid && m.parentId == none), ?_, ?_⟩
    · simp [filesGET, huid]
    · rw [List.mem_filter]
      exact ⟨hmem, by simp [hown, hroot]⟩
  · intro p hp hpar
    refine ⟨db.filter (fun m => m.userId == uid && m.parentId == some p), ?_, ?_⟩
    · simp [filesGET, huid, hp]
    · rw [List.mem_filter]
      exact ⟨hmem, by simp [hown, hpar]⟩

/-- Witness for C9: the starred-and-trashed child `c1` appears when
listing folder `p1`. -/
theorem filesGET_no_trash_star_filter_witness :
    (Droply.nodeChildFile.parentId = none →
      ∃ l, filesGET (some "u1") (some "u1") none demoDb = .ok l ∧
        Droply.nodeChildFile ∈ l) ∧
    (∀ p, p ≠ "" → Droply.nodeChildFile.parentId = some p →
      ∃ l, filesGET (some "u1") (some "u1") (some p) demoDb = .ok l ∧
        Droply.nodeChildFile ∈ l) :=
  filesGET_no_trash_star_filter demoDb "u1" nodeChildFile (by decide)
    (by simp [demoDb]) (by decide) (Or.inl (by decide))

/-! ### Claims about the folder-creation handler -/

/-- Claim C3: a folder-creation request by the authenticated caller with
matching body `userId` is rejected with a 400 and inserts nothing when
the name is absent, not a string, or whitespace-only; with a valid name
and no `parentId` it succeeds and the returned node has `parentId`
null, `isFolder` true and `size` 0. -/
theorem foldersCreate_validation_and_root_success (uid : String) (huid : uid ≠ "")
    (db : List Node) (g : FolderGen) :
    (∀ nm pid, folderNameInvalid nm = true →
      (foldersCreatePOST (some uid) ⟨nm, some uid, pid⟩ g db).1.status = 400 ∧
      (foldersCreatePOST (some uid) ⟨nm, some uid, pid⟩ g db).2 = db) ∧
    (∀ s : String, jsTrim s ≠ "" →
      ∃ f, foldersCreatePOST (some uid) ⟨some (.jstr s), some uid, none⟩ g db
          = (.success f, db ++ [f]) ∧
        f.parentId = none ∧ f.isFolder = true ∧ f.size = 0) := by
  constructor
  · intro nm pid hinv
    match nm with
    | none => simp [foldersCreatePOST, huid, CreateFolderResult.status]
    | some (.jnull) => simp [foldersCreatePOST, huid, CreateFolderResult.status]
    | some (.jbool b) => simp [foldersCreatePOST, huid, CreateFolderResult.status]
    | some (.jnum k) => simp [foldersCreatePOST, huid, CreateFolderResult.status]
    | some (.jstr s) =>
      have hs : jsTrim s = "" := by simpa [folderNameInvalid] using hinv
      simp [foldersCreatePOST, huid, hs, CreateFolderResult.status]
  · intro s hs
    refine ⟨(insertReturning db (mkFolderData uid (jsTrim s) none g) ⟨g.idUuid, g.now⟩).1,
      ?_, ?_, ?_, ?_⟩
    · simp [foldersCreatePOST, huid, hs, insertReturning]
    · simp [insertReturning, mkFolderData]
    · simp [insertReturning, mkFolderData]
    · simp [insertReturning, mkFolderData]

/-- Witness for C3: a whitespace-only name is rejected, and creating
`Vacation` at root for `u1` succeeds with the stated fields. -/
theorem foldersCreate_validation_and_root_success_witness :
    (∀ nm pid, folderNameInvalid nm = true →
      (foldersCreatePOST (some "u1") ⟨nm, some "u1", pid⟩ ⟨"id9", "pu9", 9⟩ demoDb).1.status = 400 ∧
      (foldersCreatePOST (some "u1") ⟨nm, some "u1", pid⟩ ⟨"id9", "pu9", 9⟩ demoDb).2 = demoDb) ∧
    (∀ s : String, jsTrim s ≠ "" →
      ∃ f, foldersCreatePOST (some "u1") ⟨some (.jstr s), some "u1", none⟩ ⟨"id9", "pu9", 9⟩ demoDb
          = (.success f, demoDb ++ [f]) ∧
        f.parentId = none ∧ f.isFolder = true ∧ f.size = 0) :=
  foldersCreate_validation_and_root_success "u1" (by decide) demoDb ⟨"id9", "pu9", 9⟩

/-- Claim C4: a folder-creation request giving a (non-empty) parent id
for which no node with that id, that owner and `isFolder = true` exists
— in particular when the node exists but belongs to another owner, or
is a file — gets a 404 (not a 401) and inserts nothing. -/
theorem foldersCreate_missing_parent_404 (uid s p : String) (huid : uid ≠ "")
    (hs : jsTrim s ≠ "") (hp : p ≠ "") (db : List Node) (g : FolderGen)
    (habsent : ∀ n ∈ db, ¬(n.id = p ∧ n.userId = uid ∧ n.isFolder = true)) :
    foldersCreatePOST (some uid) ⟨some (.jstr s), some uid, some p⟩ g db
      = (.parentNotFound, db) ∧
    (foldersCreatePOST (some uid) ⟨some (.jstr s), some uid, some p⟩ g db).1.status = 404 ∧
    (foldersCreatePOST (some uid) ⟨some (.jstr s), some uid, some p⟩ g db).1.status ≠ 401 := by
  have hfind : db.find? (fun n => n.id == p && n.userId == uid && n.isFolder) = none := by
    rw [List.find?_eq_none]
    intro n hn
    have h := habsent n hn
    simp only [Bool.and_eq_true, beq_iff_eq]
    tauto
  have heq : foldersCreatePOST (some uid) ⟨some (.jstr s), some uid, some p⟩ g db
      = (.parentNotFound, db) := by
    simp [foldersCreatePOST, huid, hs, hp, hfind]
  exact ⟨heq, by rw [heq]; rfl, by rw [heq]; simp [CreateFolderResult.status]⟩

/-- Witness for C4: parent id `q1` names a folder of `u2` (other
owner), and `c1` names a file of `u1` — both are rejected 404; the
witness uses `q1` against caller `u1`. -/
theorem foldersCreate_missing_parent_404_witness :
    foldersCreatePOST (some "u1") ⟨some (.jstr "New"), some "u1", some "q1"⟩
        ⟨"id9", "pu9", 9⟩ demoDb = (.parentNotFound, demoDb) ∧
    (foldersCreatePOST (some "u1") ⟨some (.jstr "New"), some "u1", some "q1"⟩
        ⟨"id9", "pu9", 9⟩ demoDb).1.status = 404 ∧
    (foldersCreatePOST (some "u1") ⟨some (.jstr "New"), some "u1", some "q1"⟩
        ⟨"id9", "pu9", 9⟩ demoDb).1.status ≠ 401 :=
  foldersCreate_missing_parent_404 "u1" "New" "q1" (by decide) (by decide) (by decide)
    demoDb ⟨"id9", "pu9", 9⟩ (by decide)

/-- Claim C5: a body (or query) user id different from the session's id
gives a 401 with nothing persisted, for the upload recorder, the folder
creator, and (via query parameter) the listing handler, whatever else
the request carries and whatever users the table holds. -/
theorem mismatched_userId_always_401 (uid : String) (huid : uid ≠ "") (db : List Node) :
    (∀ b : UploadBody, ∀ g, b.userId ≠ some uid →
      (uploadPOST (some uid) b g db).1.status = 401 ∧
      (uploadPOST (some uid) b g db).2 = db) ∧
    (∀ b : CreateFolderBody, ∀ g, b.userId ≠ some uid →
      (foldersCreatePOST (some uid) b g db).1.status = 401 ∧
      (foldersCreatePOST (some uid) b g db).2 = db) ∧
    (∀ q pid, q ≠ some uid →
      (filesGET (some uid) q pid db).status = 401) := by
  refine ⟨?_, ?_, ?_⟩
  · intro b g hb
    simp [uploadPOST, huid, hb, UploadResult.status]
  · intro b g hb
    simp [foldersCreatePOST, huid, hb, CreateFolderResult.status]
  · intro q pid hq
    match q with
    | none => simp [filesGET, huid, ListResult.status]
    | some x =>
      have hx : x ≠ uid := fun h => hq (by rw [h])
      by_cases hxe : x = ""
      · simp [filesGET, huid, hxe, ListResult.status]
      · simp [filesGET, huid, hxe, hx, ListResult.status]

/-- Witness for C5: body user id `u2` (a valid id of another existing
user in the demo table) is rejected by all three handlers for session
`u1`. -/
theorem mismatched_userId_always_401_witness :
    (∀ b : UploadBody, ∀ g, b.userId ≠ some "u1" →
      (uploadPOST (some "u1") b g demoDb).1.status = 401 ∧
      (uploadPOST (some "u1") b g demoDb).2 = demoDb) ∧
    (∀ b : CreateFolderBody, ∀ g, b.userId ≠ some "u1" →
      (foldersCreatePOST (some "u1") b g demoDb).1.status = 401 ∧
      (foldersCreatePOST (some "u1") b g demoDb).2 = demoDb) ∧
    (∀ q pid, q ≠ some "u1" →
      (filesGET (some "u1") q pid demoDb).status = 401) :=
  mismatched_userId_always_401 "u1" (by decide) demoDb

/-! ### Shape lemmas shared by the remaining claims -/

/-- Every run of the folder-creation handler either leaves the table
unchanged or appends exactly the returned folder. -/
theorem foldersCreatePOST_db_shape (s : Option String) (b : CreateFolderBody)
    (g : FolderGen) (db : List Node) :
    (foldersCreatePOST s b g db).2 = db ∨
    ∃ f, foldersCreatePOST s b g db = (.success f, db ++ [f]) := by
  unfold foldersCreatePOST
  repeat' first
    | exact Or.inl rfl
    | exact Or.inr ⟨_, rfl⟩
    | split

/-- Every run of the upload handler either leaves the table unchanged
or appends exactly the returned file. -/
theorem uploadPOST_db_shape (s : Option String) (b : UploadBody)
    (g : DbGen) (db : List Node) :
    (uploadPOST s b g db).2 = db ∨
    ∃ f, uploadPOST s b g db = (.success f, db ++ [f]) := by
  unfold uploadPOST
  repeat' first
    | exact Or.inl rfl
    | exact Or.inr ⟨_, rfl⟩
    | split

/-- Any folder the creation handler returns successfully carries the
constants of the `folderData` literal, and is exactly the appended row. -/
theorem foldersCreate_success_fields (s : Option String) (b : CreateFolderBody)
    (g : FolderGen) (db : List Node) (f : Node) (db2 : List Node)
    (h : foldersCreatePOST s b g db = (.success f, db2)) :
    f.size = 0 ∧ f.fileUrl = "" ∧ f.type = "folder" ∧ f.isFolder = true ∧
    f.isStarred = false ∧ f.isTrash = false ∧ db2 = db ++ [f] := by
  rcases s with _ | uid
  · simp [foldersCreatePOST] at h
  rcases b with ⟨nm, bu, pid⟩
  by_cases h1 : uid = ""
  · simp [foldersCreatePOST, h1] at h
  by_cases h2 : bu = some uid
  case neg => simp [foldersCreatePOST, h1, h2] at h
  rcases nm with _ | v
  · simp [foldersCreatePOST, h1, h2] at h
  cases v with
  | jnull => simp [foldersCreatePOST, h1, h2] at h
  | jbool bb => simp [foldersCreatePOST, h1, h2] at h
  | jnum k => simp [foldersCreatePOST, h1, h2] at h
  | jstr str =>
    by_cases h3 : jsTrim str = ""
    · simp [foldersCreatePOST, h1, h2, h3] at h
    · rcases pid with _ | p
      · simp [foldersCreatePOST, h1, h2, h3, insertReturning, mkFolderData] at h
        obtain ⟨hf, hdb⟩ := h
        subst hdb
        simp [← hf]
      · by_cases h4 : p = ""
        · simp [foldersCreatePOST, h1, h2, h3, h4, insertReturning, mkFolderData] at h
          obtain ⟨hf, hdb⟩ := h
          subst hdb
          simp [← hf]
        · rcases hfind : db.find? (fun n => n.id == p && n.userId == uid && n.isFolder)
            with _ | q
          · simp [foldersCreatePOST, h1, h2, h3, h4, hfind] at h
          · simp [foldersCreatePOST, h1, h2, h3, h4, hfind, insertReturning,
              mkFolderData] at h
            obtain ⟨hf, hdb⟩ := h
            subst hdb
            simp [← hf]

/-- Any file the upload handler returns successfully carries the
constants of the `fileData` literal — in particular a root `parentId`
and a non-empty url — and is exactly the appended row. -/
theorem upload_success_fields (s : Option String) (b : UploadBody)
    (g : DbGen) (db : List Node) (f : Node) (db2 : List Node)
    (h : uploadPOST s b g db = (.success f, db2)) :
    f.isFolder = false ∧ f.isStarred = false ∧ f.isTrash = false ∧
    f.fileUrl ≠ "" ∧ f.parentId = none ∧ db2 = db ++ [f] := by
  rcases s with _ | uid
  · simp [uploadPOST] at h
  rcases b with ⟨bu, oik, pid⟩
  by_cases h1 : uid = ""
  · simp [uploadPOST, h1] at h
  by_cases h2 : bu = some uid
  case neg => simp [uploadPOST, h1, h2] at h
  rcases oik with _ | ik
  · simp [uploadPOST, h1, h2] at h
  rcases hurl : ik.url with _ | u
  · simp [uploadPOST, h1, h2, hurl] at h
  by_cases h3 : u = ""
  · simp [uploadPOST, h1, h2, hurl, h3] at h
  · simp [uploadPOST, h1, h2, hurl, h3, insertReturning, mkFileData] at h
    obtain ⟨hf, hdb⟩ := h
    subst hdb
    simp [← hf, h3]

/-- Demo imagekit upload result used by witnesses. -/
def demoIk : ImagekitObj :=
  ⟨some "https://cdn/x.jpg", some "x.jpg", none, some 1024, some "image/jpeg", none⟩

/-- The row the upload handler persists for `demoIk` with generated id
`gid` and timestamp `8`. -/
def demoUploadNode : Node :=
  ⟨"gid", "x.jpg", "/droply/u1/x.jpg", 1024, "image/jpeg", "https://cdn/x.jpg",
    none, "u1", none, false, false, false, 8, 8⟩

/-- The row the folder handler persists for name `New` at root with
uuids `idA`/`puA` and timestamp `7`. -/
def demoFolderNode : Node :=
  ⟨"idA", "New", "/folders/u1/puA", 0, "folder", "", none, "u1", none,
    true, false, false, 7, 7⟩

/-! ### Claims about the upload-recording handler -/

/-- Claim C6: an authenticated, identity-matching upload request with a
missing `imagekit` object or a missing (or falsy empty) `url` gets a
400 and persists nothing; otherwise the handler persists a node with
`isFolder = false` and `fileUrl` equal to the given url, and returns
that persisted node including the generated id and timestamps. -/
theorem upload_validation_and_success (uid : String) (huid : uid ≠ "")
    (db : List Node) (g : DbGen) :
    (∀ pid, (uploadPOST (some uid) ⟨some uid, none, pid⟩ g db).1.status = 400 ∧
      (uploadPOST (some uid) ⟨some uid, none, pid⟩ g db).2 = db) ∧
    (∀ ik : ImagekitObj, ∀ pid, ik.url = none ∨ ik.url = some "" →
      (uploadPOST (some uid) ⟨some uid, some ik, pid⟩ g db).1.status = 400 ∧
      (uploadPOST (some uid) ⟨some uid, some ik, pid⟩ g db).2 = db) ∧
    (∀ ik : ImagekitObj, ∀ u pid, ik.url = some u → u ≠ "" →
      ∃ f, uploadPOST (some uid) ⟨some uid, some ik, pid⟩ g db
          = (.success f, db ++ [f]) ∧
        f.isFolder = false ∧ f.fileUrl = u ∧ f.id = g.genId ∧
        f.createdAt = g.now ∧ f.updatedAt = g.now) := by
  refine ⟨?_, ?_, ?_⟩
  · intro pid
    simp [uploadPOST, huid, UploadResult.status]
  · intro ik pid hurl
    rcases hurl with hurl | hurl <;>
      simp [uploadPOST, huid, hurl, UploadResult.status]
  · intro ik u pid hurl hu
    refine ⟨(insertReturning db (mkFileData uid ik u) g).1, ?_, ?_, ?_, ?_, ?_, ?_⟩
    · simp [uploadPOST, huid, hurl, hu, insertReturning]
    · simp [insertReturning, mkFileData]
    · simp [insertReturning, mkFileData]
    · simp [insertReturning, mkFileData]
    · simp [insertReturning]
    · simp [insertReturning]

/-- Witness for C6 at caller `u1`, generated id `gid`, timestamp `8`. -/
theorem upload_validation_and_success_witness :
    (∀ pid, (uploadPOST (some "u1") ⟨some "u1", none, pid⟩ ⟨"gid", 8⟩ demoDb).1.status = 400 ∧
      (uploadPOST (some "u1") ⟨some "u1", none, pid⟩ ⟨"gid", 8⟩ demoDb).2 = demoDb) ∧
    (∀ ik : ImagekitObj, ∀ pid, ik.url = none ∨ ik.url = some "" →
      (uploadPOST (some "u1") ⟨some "u1", some ik, pid⟩ ⟨"gid", 8⟩ demoDb).1.status = 400 ∧
      (uploadPOST (some "u1") ⟨some "u1", some ik, pid⟩ ⟨"gid", 8⟩ demoDb).2 = demoDb) ∧
    (∀ ik : ImagekitObj, ∀ u pid, ik.url = some u → u ≠ "" →
      ∃ f, uploadPOST (some "u1") ⟨some "u1", some ik, pid⟩ ⟨"gid", 8⟩ demoDb
          = (.success f, demoDb ++ [f]) ∧
        f.isFolder = false ∧ f.fileUrl = u ∧ f.id = "gid" ∧
        f.createdAt = 8 ∧ f.updatedAt = 8) :=
  upload_validation_and_success "u1" (by decide) demoDb ⟨"gid", 8⟩

/-- Claim C7: every node the folder handler persists has `size 0`,
empty `fileUrl`, type `"folder"`, `isFolder` true and cleared
star/trash flags; every node the upload handler persists has `isFolder`
false, cleared star/trash flags and a non-empty `fileUrl`. -/
theorem persisted_node_invariants (s : Option String)
    (bf : CreateFolderBody) (bu : UploadBody) (gf : FolderGen) (gu : DbGen)
    (db : List Node) (ff fu : Node) (db2 db3 : List Node)
    (hf : foldersCreatePOST s bf gf db = (.success ff, db2))
    (hu : uploadPOST s bu gu db = (.success fu, db3)) :
    (ff.size = 0 ∧ ff.fileUrl = "" ∧ ff.type = "folder" ∧ ff.isFolder = true ∧
      ff.isStarred = false ∧ ff.isTrash = false ∧ db2 = db ++ [ff]) ∧
    (fu.isFolder = false ∧ fu.isStarred = false ∧ fu.isTrash = false ∧
      fu.fileUrl ≠ "" ∧ db3 = db ++ [fu]) := by
  have h1 := foldersCreate_success_fields s bf gf db ff db2 hf
  have h2 := upload_success_fields s bu gu db fu db3 hu
  tauto

/-- Witness for C7: concrete successful creation of folder `New` and
upload of `demoIk` by `u1` on the demo table. -/
theorem persisted_node_invariants_witness :
    (demoFolderNode.size = 0 ∧ demoFolderNode.fileUrl = "" ∧
      demoFolderNode.type = "folder" ∧ demoFolderNode.isFolder = true ∧
      demoFolderNode.isStarred = false ∧ demoFolderNode.isTrash = false ∧
      demoDb ++ [demoFolderNode] = demoDb ++ [demoFolderNode]) ∧
    (demoUploadNode.isFolder = false ∧ demoUploadNode.isStarred = false ∧
      demoUploadNode.isTrash = false ∧ demoUploadNode.fileUrl ≠ "" ∧
      demoDb ++ [demoUploadNode] = demoDb ++ [demoUploadNode]) :=
  persisted_node_invariants (some "u1")
    ⟨some (.jstr "New"), some "u1", none⟩ ⟨some "u1", some demoIk, none⟩
    ⟨"idA", "puA", 7⟩ ⟨"gid", 8⟩ demoDb demoFolderNode demoUploadNode
    (demoDb ++ [demoFolderNode]) (demoDb ++ [demoUploadNode])
    (by decide) (by decide)

/-- Claim C8: a successful upload always persists the file at root:
`parentId` is null even when the request body carries a `parentId`
field, so the upload handler can never place a file inside a folder. -/
theorem upload_parentId_always_null (s : Option String) (b : UploadBody)
    (g : DbGen) (db : List Node) (f : Node) (db2 : List Node)
    (h : uploadPOST s b g db = (.success f, db2)) :
    f.parentId = none :=
  (upload_success_fields s b g db f db2 h).2.2.2.2.1

/-- Witness for C8: the body names parent folder `p1`, yet the
persisted node is at root. -/
theorem upload_parentId_always_null_witness :
    uploadPOST (some "u1") ⟨some "u1", some demoIk, some "p1"⟩ ⟨"gid", 8⟩ demoDb
      = (.success demoUploadNode, demoDb ++ [demoUploadNode]) ∧
    demoUploadNode.parentId = none :=
  ⟨by decide,
    upload_parentId_always_null (some "u1") ⟨some "u1", some demoIk, some "p1"⟩
      ⟨"gid", 8⟩ demoDb demoUploadNode (demoDb ++ [demoUploadNode]) (by decide)⟩

/-- Claim C10: a 400, 401 or 404 outcome of either write handler
inserts no row — the table after the request equals the table before
it (each handler is a single-shot function: the failure is terminal for
that request). -/
theorem error_outcomes_insert_nothing (s : Option String)
    (bf : CreateFolderBody) (bu : UploadBody) (gf : FolderGen) (gu : DbGen)
    (db : List Node)
    (hf : (foldersCreatePOST s bf gf db).1.status = 400 ∨
          (foldersCreatePOST s bf gf db).1.status = 401 ∨
          (foldersCreatePOST s bf gf db).1.status = 404)
    (hu : (uploadPOST s bu gu db).1.status = 400 ∨
          (uploadPOST s bu gu db).1.status = 401) :
    (foldersCreatePOST s bf gf db).2 = db ∧ (uploadPOST s bu gu db).2 = db := by
  constructor
  · rcases foldersCreatePOST_db_shape s bf gf db with h | ⟨f, h⟩
    · exact h
    · rw [h] at hf
      simp [CreateFolderResult.status] at hf
  · rcases uploadPOST_db_shape s bu gu db with h | ⟨f, h⟩
    · exact h
    · rw [h] at hu
      simp [UploadResult.status] at hu

/-- Witness for C10: a whitespace folder name (400) and a mismatched
upload user id (401) both leave the demo table unchanged. -/
theorem error_outcomes_insert_nothing_witness :
    (foldersCreatePOST (some "u1") ⟨some (.jstr " "), some "u1", none⟩
        ⟨"idA", "puA", 7⟩ demoDb).2 = demoDb ∧
    (uploadPOST (some "u1") ⟨some "u2", some demoIk, none⟩ ⟨"gid", 8⟩ demoDb).2 = demoDb :=
  error_outcomes_insert_nothing (some "u1")
    ⟨some (.jstr " "), some "u1", none⟩ ⟨some "u2", some demoIk, none⟩
    ⟨"idA", "puA", 7⟩ ⟨"gid", 8⟩ demoDb (by decide) (by decide)

end Droply
